import Mathlib

/-!
Verification of `sql_useful.py` (bulk_copy repository).

Shallow embedding of the pure/data parts of the module: SQL literal escaping,
the bulk-insert batching state machine, MySQL key-row grouping, the SQLite
CREATE INDEX reverse-parse, column-descriptor translation, and connection
parameter-string parsing.  Python exceptions are modelled by `Except PyErr`
(or by an `Option String` error component where a generator's earlier yields
matter); external I/O (the actual DBMS connections, cursors, getpass) is out
of the embedding, so functions take the rows a query would deliver as inputs
and record executed statements in an explicit log.
-/

/-- Python exception kinds raised by the code under study. -/
inductive PyErr : Type where
  | usage (msg : String)        -- getopt.GetoptError
  | valueError (msg : String)
  | indexError
  | keyError (k : String)
  | attributeError (msg : String)
  deriving DecidableEq

/-- A Python value passed to a DBMS `string` (escape) method: `None`, a
`bytes` object (a list of bytes), an `int`, or a `str`.  Any other Python
value would go through the same `str(s)` branch as `.text`. -/
inductive SqlValue : Type where
  | null
  | blob (b : List (Fin 256))
  | int (i : Int)
  | text (s : String)
  deriving DecidableEq

/-- Uppercase hexadecimal digit, as produced by Python's `"%02X"` format. -/
def hexDigit (n : Nat) : Char :=
  (("0123456789ABCDEF").data.getD n '0')

/-- Two-digit uppercase hexadecimal rendering of one byte (`"%02X" % i`). -/
def hex2 (b : Fin 256) : String :=
  String.mk [hexDigit (b.val / 16), hexDigit (b.val % 16)]

/-- Python `str(s)` for the values that reach the catch-all branch of
`MySQLDBMS.string` (ints and strings; the other constructors never reach it). -/
def pyStr : SqlValue → String
  | .null => "None"
  | .blob _ => ""
  | .int i => toString i
  | .text s => s

/-- The per-character substitution of `MySQLDBMS.string`'s catch-all branch,
transcribed from the `if`/`elif` chain of the source. -/
def mysqlEscapeChar (ch : Char) : String :=
  if ch = '\x00' then "\\0"
  else if ch = '\x08' then "\\b"
  else if ch = '\x09' then "\\t"
  else if ch = '\x0a' then "\\n"
  else if ch = '\x0d' then "\\r"
  else if ch = '\x1a' then "\\z"
  else if ch = '\'' ∨ ch = '\"' ∨ ch = '\\' then "\\" ++ String.mk [ch]
  else String.mk [ch]

/-- `MySQLDBMS.string`: the MySQL dialect's SQL literal for a value. -/
def MySQLDBMS.string : SqlValue → String
  | .null => "null"
  | .blob b => "X'" ++ String.join (b.map hex2) ++ "'"
  | v => "\"" ++ String.join ((pyStr v).data.map mysqlEscapeChar) ++ "\""

/-- The substitution table of the specification, stated as the spec words it:
NUL, backspace, tab, newline, carriage return and ASCII 0x1A map to the
two-character sequences shown, and each of `'`, `"`, `\` is prefixed with a
backslash; every other character stands for itself. -/
def specCharSubTable : List (Char × String) :=
  [('\x00', "\\0"), ('\x08', "\\b"), ('\x09', "\\t"),
   ('\x0a', "\\n"), ('\x0d', "\\r"), ('\x1a', "\\z")]

/-- Spec-side per-character substitution (see `specCharSubTable`). -/
def specCharSub (ch : Char) : String :=
  match specCharSubTable.lookup ch with
  | some r => r
  | none =>
      if ch ∈ ['\'', '\"', '\\'] then "\\" ++ String.mk [ch]
      else String.mk [ch]

/-- `parse_bool`: interprets a user-specified string as a boolean by looking
only at its lowercased first character (`s[0].lower()`); an empty string hits
`s[0]` and raises IndexError. -/
def parse_bool (s : String) : Except PyErr Bool :=
  match s.data with
  | [] => .error .indexError
  | c :: _ =>
      let c := c.toLower
      if c = 'y' ∨ c = 't' ∨ c = '1' then .ok true
      else if c = 'n' ∨ c = 'f' ∨ c = '0' then .ok false
      else .error (.valueError ("invalid bool value '" ++ String.mk [c] ++ "'"))

/-- Modelled from the spec: `apsw.format_sql_value`, the SQLite engine's
native literal formatter that `SQLiteDBMS.string` delegates to (the function
itself is not in src/).  NULL for an absent value, decimal text for an
integer, single quotes with embedded quotes doubled for a string, and a hex
blob literal for bytes. -/
def format_sql_value : SqlValue → String
  | .null => "NULL"
  | .int i => toString i
  | .text s => "'" ++ String.join (s.data.map fun c =>
      if c = '\'' then "''" else String.mk [c]) ++ "'"
  | .blob b => "X'" ++ String.join (b.map hex2) ++ "'"

/-- `SQLiteDBMS.string`: delegates to the engine's native formatter. -/
def SQLiteDBMS.string (s : SqlValue) : String :=
  format_sql_value s

/-- A record passed to `BulkInserter.add_record`: the Python code accepts a
positional sequence of values or a dict keyed by field name. -/
inductive FieldValues : Type where
  | positional (vs : List SqlValue)
  | mapped (d : List (String × SqlValue))
  deriving DecidableEq

/-- `BulkInserter` state.  `executed` logs the statements run through
`self.cursor.execute` (the cursor's external side effect); `cursor` records
whether a cursor object is currently open (`self.cursor is not None`). -/
structure BulkInserter : Type where
  table_name : String
  field_names : List String
  ignore_duplicates : Bool
  insert_limit : Nat
  field_values : List (List String)
  executed : List String
  cursor : Bool
  deriving DecidableEq

/-- `BulkInserter.__init__`: binds table and field names, sets the batch
ceiling to 500 and starts with an empty buffer and no cursor. -/
def mkBulkInserter (table_name : String) (field_names : List String)
    (ignore_duplicates : Bool) : BulkInserter :=
  { table_name := table_name, field_names := field_names,
    ignore_duplicates := ignore_duplicates, insert_limit := 500,
    field_values := [], executed := [], cursor := false }

/-- Python `sep.join(parts)`. -/
def pyJoin (sep : String) : List String → String
  | [] => ""
  | [a] => a
  | a :: b :: rest => a ++ sep ++ pyJoin sep (b :: rest)

/-- The `values` chunks appended by the loop in `done_insert`: each record
contributes `" (v1, ..., vn)"`, preceded by `","` except for the first. -/
def valuesText : List (List String) → Bool → String
  | [], _ => ""
  | r :: rest, first =>
      (if first then "" else ",") ++ " (" ++ pyJoin ", " r ++ ")" ++
        valuesText rest false

/-- The SQL text built by `done_insert` from the current buffer. -/
def insertStatement (bi : BulkInserter) : String :=
  "insert" ++ (if bi.ignore_duplicates then " ignore" else "") ++
    " into " ++ bi.table_name ++ " (" ++ pyJoin ", " bi.field_names ++
    ") values" ++ valuesText bi.field_values true

/-- `BulkInserter.done_insert`: no-op on an empty buffer; otherwise executes
the one built statement on the cursor, closes the cursor and clears the
buffer. -/
def BulkInserter.done_insert (bi : BulkInserter) : BulkInserter :=
  if bi.field_values.length ≠ 0 then
    { bi with executed := bi.executed ++ [insertStatement bi],
              field_values := [], cursor := false }
  else bi

/-- The escaped record built inside `add_record`: a dict is read back in
`field_names` order (a missing name raises KeyError), a sequence is escaped
element by element in its own order. -/
def buildRecord (esc : SqlValue → String) (field_names : List String) :
    FieldValues → Except PyErr (List String)
  | .mapped d =>
      field_names.mapM fun fn =>
        match d.lookup fn with
        | some v => .ok (esc v)
        | none => .error (.keyError fn)
  | .positional vs => .ok (vs.map esc)

/-- `BulkInserter.add_record`: flushes first if the buffer is at the ceiling,
opens a cursor if none is open, escapes the record through the bound
backend's `string` and appends it.  The returned `Option PyErr` is the
exception raised while building the record, if any (the flush and cursor
mutations have already happened when it is raised). -/
def BulkInserter.add_record (bi : BulkInserter) (esc : SqlValue → String)
    (field_values : FieldValues) : BulkInserter × Option PyErr :=
  let bi := if bi.field_values.length = bi.insert_limit then bi.done_insert else bi
  let bi := if bi.cursor then bi else { bi with cursor := true }
  match buildRecord esc bi.field_names field_values with
  | .error e => (bi, some e)
  | .ok r => ({ bi with field_values := bi.field_values ++ [r] }, none)

/-- One caller-visible operation on a `BulkInserter` after construction. -/
inductive BIOp : Type where
  | add (vs : FieldValues)
  | flush
  deriving DecidableEq

/-- Apply one operation. -/
def applyOp (esc : SqlValue → String) (bi : BulkInserter) : BIOp → BulkInserter
  | .add vs => (bi.add_record esc vs).1
  | .flush => bi.done_insert

/-- Run a sequence of operations from a given state. -/
def runOps (esc : SqlValue → String) (bi : BulkInserter) : List BIOp → BulkInserter
  | [] => bi
  | op :: ops => runOps esc (applyOp esc bi op) ops

/-- The statement shape stated by the spec: `insert [duplicate-keyword] into
table (f1, ..., fn) values (t1), (t2), ...` with comma-separated tuples of
the already-escaped literals. -/
def specInsertStatement (ignore : Bool) (table : String) (fields : List String)
    (rows : List (List String)) : String :=
  "insert" ++ (if ignore then " ignore" else "") ++ " into " ++ table ++
    " (" ++ pyJoin ", " fields ++ ") values " ++
    pyJoin ", " (rows.map fun r => "(" ++ pyJoin ", " r ++ ")")

/-- One row of MySQL `SHOW KEYS` as read by the code: the code uses
`item[1]` (Non_unique), `item[2]` (Key_name), `item[3]` (Seq_in_index) and
`item[4]` (Column_name). -/
structure KeyRow : Type where
  nonUnique : Nat
  keyName : String
  keySeq : Nat
  fieldName : String
  deriving DecidableEq

/-- A key descriptor as yielded by `iter_keys`. -/
structure KeyEntry : Type where
  name : String
  unique : Bool
  fields : List String
  deriving DecidableEq

/-- The entry a run of rows of one key produces: name and uniqueness from the
run's first row, field names in row order. -/
def mkEntry : List KeyRow → KeyEntry
  | [] => { name := "", unique := false, fields := [] }
  | r :: rest => { name := r.keyName, unique := r.nonUnique == 0,
                   fields := (r :: rest).map KeyRow.fieldName }

/-- The accumulation loop of `MySQLDBMS.iter_keys` after the first row of a
key has been consumed: `entry` is the entry under construction and `lastSeq`
the sequence number of its last field.  The result is the list of entries the
generator yielded plus `some msg` when the sequence assertion failed (the
entry under construction is lost in that case; an entry completed by the very
row whose assertion fails was already yielded). -/
def mysqlIterKeysGo (entry : KeyEntry) (lastSeq : Nat) :
    List KeyRow → List KeyEntry × Option String
  | [] => ([entry], none)
  | r :: rest =>
      if r.keyName = entry.name then
        if r.keySeq = lastSeq + 1 then
          mysqlIterKeysGo { entry with fields := entry.fields ++ [r.fieldName] }
            r.keySeq rest
        else ([], some "key fields not being returned in sequence")
      else
        if r.keySeq = 1 then
          let p := mysqlIterKeysGo
            { name := r.keyName, unique := r.nonUnique == 0,
              fields := [r.fieldName] } r.keySeq rest
          (entry :: p.1, p.2)
        else ([entry], some "key fields not being returned in sequence")

/-- `MySQLDBMS.iter_keys` on the non-primary `SHOW KEYS` rows (which arrive
pre-ordered by key name then sequence): yielded entries plus the assertion
failure, if any. -/
def MySQLDBMS.iter_keys (rows : List KeyRow) : List KeyEntry × Option String :=
  match rows with
  | [] => ([], none)
  | r :: rest =>
      if r.keySeq = 1 then
        mysqlIterKeysGo
          { name := r.keyName, unique := r.nonUnique == 0,
            fields := [r.fieldName] } r.keySeq rest
      else ([], some "key fields not being returned in sequence")

/-- Spec-side grouping: split a row list into maximal runs of consecutive
rows sharing a key name (`cur` is the run being accumulated). -/
def keyRunsGo (name : String) (cur : List KeyRow) :
    List KeyRow → List (List KeyRow)
  | [] => [cur]
  | r :: rest =>
      if r.keyName = name then keyRunsGo name (cur ++ [r]) rest
      else cur :: keyRunsGo r.keyName [r] rest

/-- Spec-side grouping of rows into one run per consecutive key name. -/
def keyRuns : List KeyRow → List (List KeyRow)
  | [] => []
  | r :: rest => keyRunsGo r.keyName [r] rest

/-- The spec's sequence condition: the list is exactly `k, k+1, k+2, ...`. -/
def seqFromB : Nat → List Nat → Bool
  | _, [] => true
  | k, a :: t => a == k && seqFromB (k + 1) t

/-- The spec's invariant on a full `SHOW KEYS` result: within every key the
sequence numbers form the strictly ascending run 1, 2, 3, ... with no gaps. -/
def seqRunsValid (rows : List KeyRow) : Bool :=
  (keyRuns rows).all fun g => seqFromB 1 (g.map KeyRow.keySeq)

/-- A normalized column descriptor (the dict yielded by `iter_columns`). -/
structure ColumnDesc : Type where
  name : String
  type : String
  not_null : Bool
  default : Option String
  primary_key_seq : Option Nat
  deriving DecidableEq

/-- One row of MySQL `SHOW COLUMNS`: the code uses `item[0]` (Field),
`item[1]` (Type), `item[2]` (Null, the text `"YES"` or `"NO"`) and `item[4]`
(Default). -/
structure MySQLColumnRow : Type where
  field : String
  type : String
  nullText : String
  key : String
  default : Option String
  extra : String
  deriving DecidableEq

/-- The translation `MySQLDBMS.iter_columns` applies to one `SHOW COLUMNS`
row, given the primary-key sequence map built from the first query.  Note the
source computes `not_null` as `item[2] != "NO"`. -/
def mysqlColumnOfRow (pkseq : String → Option Nat) (item : MySQLColumnRow) :
    ColumnDesc :=
  { name := item.field, type := item.type,
    not_null := item.nullText ≠ "NO", default := item.default,
    primary_key_seq := pkseq item.field }

/-- The field-to-sequence map `iter_columns` builds from the PRIMARY `SHOW
KEYS` rows (a Python dict: a later row for the same field overwrites). -/
def mysqlPrimarySeq (pkRows : List KeyRow) (field : String) : Option Nat :=
  (pkRows.reverse.find? fun it => it.fieldName == field).map KeyRow.keySeq

/-- `MySQLDBMS.iter_columns` on the delivered rows of its two queries. -/
def MySQLDBMS.iter_columns (pkRows : List KeyRow)
    (colRows : List MySQLColumnRow) : List ColumnDesc :=
  colRows.map (mysqlColumnOfRow (mysqlPrimarySeq pkRows))

/-- One row of SQLite `pragma table_info`: the code uses `item[1]` (name),
`item[2]` (type), `item[3]` (notnull), `item[4]` (dflt_value), `item[5]`
(pk). -/
structure SQLiteColumnRow : Type where
  cid : Nat
  name : String
  type : String
  notnull : Int
  dflt_value : Option String
  pk : Nat
  deriving DecidableEq

/-- The translation `SQLiteDBMS.iter_columns` applies to one pragma row. -/
def sqliteColumnOfRow (item : SQLiteColumnRow) : ColumnDesc :=
  { name := item.name, type := item.type,
    not_null := item.notnull ≠ 0, default := item.dflt_value,
    primary_key_seq := if item.pk ≠ 0 then some item.pk else none }

/-- `SQLiteDBMS.iter_columns` on the delivered pragma rows. -/
def SQLiteDBMS.iter_columns (rows : List SQLiteColumnRow) : List ColumnDesc :=
  rows.map sqliteColumnOfRow

/-- Python `s.split(sep)` for a one-character separator, on character lists:
splitting an empty string gives `[""]`, and separators at the ends produce
empty pieces. -/
def pySplitChar (sep : Char) : List Char → List (List Char)
  | [] => [[]]
  | c :: rest =>
      let r := pySplitChar sep rest
      if c = sep then [] :: r
      else (c :: r.headD []) :: r.tail

/-- Python `s.split(sep)` on strings (one-character separator). -/
def pySplitStr (sep : Char) (s : String) : List String :=
  (pySplitChar sep s.data).map String.mk

/-- Python `s.split(sep, 1)`: the part before the first separator and the
untouched remainder, or `none` when the separator does not occur. -/
def pySplit1 (sep : Char) : List Char → Option (List Char × List Char)
  | [] => none
  | c :: rest =>
      if c = sep then some ([], rest)
      else (pySplit1 sep rest).map fun p => (c :: p.1, p.2)

/-- Python `s.strip()`: remove whitespace from both ends. -/
def pyStrip (s : String) : String :=
  String.mk (((s.data.dropWhile Char.isWhitespace).reverse.dropWhile
    Char.isWhitespace).reverse)

/-- Decimal value of a nonempty all-digit character list. -/
def digitsVal (l : List Char) : Option Nat :=
  if l.isEmpty || !(l.all Char.isDigit) then none
  else some (l.foldl (fun a c => a * 10 + (c.toNat - 48)) 0)

/-- Python `int()` on a string: optional surrounding whitespace, optional
sign, decimal digits; `none` models the ValueError for anything else. -/
def pyInt (s : String) : Option Int :=
  match (pyStrip s).data with
  | '-' :: rest => (digitsVal rest).map fun n => -(n : Int)
  | '+' :: rest => (digitsVal rest).map fun n => (n : Int)
  | l => (digitsVal l).map fun n => (n : Int)

/-- Word characters of the regex class `\w` (ASCII letters, digits, `_`). -/
def isWordChar (c : Char) : Bool :=
  c.isAlphanum || c = '_'

/-- Consume `pat` case-insensitively from the front of `s` (the regex runs
under `re.IGNORECASE`). -/
def eatCI : List Char → List Char → Option (List Char)
  | [], s => some s
  | _ :: _, [] => none
  | p :: ps, c :: cs => if c.toLower = p.toLower then eatCI ps cs else none

/-- Consume a nonempty maximal `\w+` word. -/
def takeWord (s : List Char) : Option (String × List Char) :=
  let w := s.takeWhile isWordChar
  if w.isEmpty then none
  else some (String.mk w, s.drop w.length)

/-- Consume the nonempty field-list group `([^\)]+)` followed by `\)`. -/
def takeFields (s : List Char) : Option (String × List Char) :=
  let w := s.takeWhile fun c => c ≠ ')'
  if w.isEmpty then none
  else
    match s.drop w.length with
    | ')' :: rest => some (String.mk w, rest)
    | _ => none

/-- The reverse-parse of a stored `CREATE INDEX` DDL text attempted by
`SQLiteDBMS.iter_keys`, i.e. the match of
`^create( unique)? index (\w+) on (\w+)\s*\(([^\)]+)\)` with `re.IGNORECASE`
(the source calls `re.search` although the module never imports `re`; this
models the pattern the call names).  Returns the uniqueness flag, index
name, table name and raw field-list text, or `none` when the text does not
match. -/
def parseCreateIndex (ddl : String) : Option (Bool × String × String × String) := do
  let s ← eatCI "create".data ddl.data
  let (uniq, s) :=
    match eatCI " unique".data s with
    | some s2 => (true, s2)
    | none => (false, s)
  let s ← eatCI " index ".data s
  let (name, s) ← takeWord s
  let s ← eatCI " on ".data s
  let (tbl, s) ← takeWord s
  let s := s.dropWhile Char.isWhitespace
  match s with
  | '(' :: s2 =>
      let (flds, _) ← takeFields s2
      some (uniq, name, tbl, flds)
  | _ => none

/-- `SQLiteDBMS.iter_keys`: reads the stored DDL of every row of
`sqlite_master` with `type = 'index'` (the query has no table filter and the
`table_name` argument is never used), reverse-parses each and yields a
`KeyEntry` with the comma-split, whitespace-trimmed field list.  A
non-matching DDL makes `match.group` blow up on `None`. -/
def SQLiteDBMS.iter_keys (table_name : String) : List String →
    Except PyErr (List KeyEntry)
  | [] => .ok []
  | ddl :: rest =>
      match parseCreateIndex ddl, SQLiteDBMS.iter_keys table_name rest with
      | none, _ => .error (.attributeError "NoneType object has no attribute group")
      | some _, .error e => .error e
      | some (uniq, name, _tbl, flds), .ok es =>
          .ok ({ name := name, unique := uniq,
                 fields := (pySplitStr ',' flds).map pyStrip } :: es)

/-- A converted connection-parameter value. -/
inductive PyVal : Type where
  | str (s : String)
  | int (i : Int)
  | bool (b : Bool)
  deriving DecidableEq

/-- A declared parameter converter (the functions in `conn_parm_names`). -/
inductive Conv : Type where
  | cstr
  | cint
  | cbool
  deriving DecidableEq

/-- Apply a converter to a raw value string.  `cint` is Python `int()` on a
decimal literal; `cbool` is `parse_bool`. -/
def applyConv : Conv → String → Except PyErr PyVal
  | .cstr, v => .ok (.str v)
  | .cint, v =>
      match pyInt v with
      | some n => .ok (.int n)
      | none => .error (.valueError ("invalid literal for int: " ++ v))
  | .cbool, v => (parse_bool v).map PyVal.bool

/-- The registry `DBMSClasses` with each class's `conn_parm_names` table. -/
def DBMSClasses : List (String × List (String × Conv)) :=
  [("mysql",
    [("database", .cstr), ("host", .cstr), ("password", .cstr),
     ("port", .cint), ("user", .cstr)]),
   ("sqlite",
    [("create", .cbool), ("filename", .cstr), ("write", .cbool)])]

/-- Python `item.split("=", 1)` unpacked into two names: ValueError when the
token holds no `=`. -/
def splitKV (item : String) : Except PyErr (String × String) :=
  match pySplit1 '=' item.data with
  | none => .error (.valueError "not enough values to unpack")
  | some (k, v) => .ok (String.mk k, String.mk v)

/-- Python dict assignment: replace in place if the key exists, else append. -/
def dictInsert (d : List (String × PyVal)) (k : String) (v : PyVal) :
    List (String × PyVal) :=
  if d.any fun p => p.1 == k then
    d.map fun p => if p.1 == k then (k, v) else p
  else d ++ [(k, v)]

/-- Insertion into the `unrecognized` set. -/
def setAdd (s : List String) (k : String) : List String :=
  if k ∈ s then s else s ++ [k]

/-- Insertion sort used to model `sorted(unrecognized)` in the message. -/
def insertSorted (x : String) : List String → List String
  | [] => [x]
  | y :: t => if x ≤ y then x :: y :: t else y :: insertSorted x t

/-- Sort a list of strings ascending. -/
def sortStrings (l : List String) : List String :=
  l.foldr insertSorted []

/-- The token loop of `parse_dbms_params`: validates each `key=value` token
against the class's `conn_parm_names` (with `"create"` excluded), converting
accepted values and collecting unrecognized keywords. -/
def paramsLoop (tbl : List (String × Conv)) :
    List String → List (String × PyVal) → List String →
    Except PyErr (List (String × PyVal) × List String)
  | [], conn, unrec => .ok (conn, unrec)
  | item :: rest, conn, unrec =>
      match splitKV item with
      | .error e => .error e
      | .ok (keyword, value) =>
          if (tbl.lookup keyword).isSome ∧ keyword ≠ "create" then
            match applyConv ((tbl.lookup keyword).getD .cstr) value with
            | .error e => .error e
            | .ok pv => paramsLoop tbl rest (dictInsert conn keyword pv) unrec
          else paramsLoop tbl rest conn (setAdd unrec keyword)

/-- `parse_dbms_params` up to (and excluding) the connection attempt: the
colon-split, the registry lookup of token 0, the token validation loop and
the unrecognized-keyword check, returning the DBMS name and the converted
connection arguments that would be passed to the class constructor.  The
interactive empty-password prompt and the constructor call itself are
external effects past this point. -/
def parse_dbms_params (paramsstr doing_what : String) :
    Except PyErr (String × List (String × PyVal)) :=
  let items := pySplitStr ':' paramsstr
  if items.length = 0 then
    .error (.usage ("need to specify DBMS " ++ doing_what))
  else
    let dbmstype := items.headD ""
    match DBMSClasses.lookup dbmstype with
    | none => .error (.usage ("unrecognized DBMS " ++ dbmstype ++ " " ++ doing_what))
    | some tbl =>
        match paramsLoop tbl items.tail [] [] with
        | .error e => .error e
        | .ok (conn, unrec) =>
            if unrec.length ≠ 0 then
              .error (.usage ("unrecognized " ++ dbmstype ++
                " connection params " ++ pyJoin "," (sortStrings unrec) ++
                " " ++ doing_what))
            else .ok (dbmstype, conn)

/-- Whether a result is a usage-level (`getopt.GetoptError`) failure. -/
def isUsageError {α : Type} : Except PyErr α → Bool
  | .error (.usage _) => true
  | _ => false

/-- The inserter state after `n` successive `add_record` calls, each adding
the one-field record `(None,)`, on a fresh MySQL-bound inserter for table
`t` with field list `["a"]` and duplicate-ignore off. -/
def addNullN : Nat → BulkInserter
  | 0 => mkBulkInserter "t" ["a"] false
  | n + 1 => ((addNullN n).add_record MySQLDBMS.string (.positional [.null])).1

set_option maxRecDepth 8192

lemma mysqlEscapeChar_eq_spec (c : Char) : mysqlEscapeChar c = specCharSub c := by
  by_cases h0 : c = '\x00'
  · subst h0; rfl
  by_cases h1 : c = '\x08'
  · subst h1; rfl
  by_cases h2 : c = '\x09'
  · subst h2; rfl
  by_cases h3 : c = '\x0a'
  · subst h3; rfl
  by_cases h4 : c = '\x0d'
  · subst h4; rfl
  by_cases h5 : c = '\x1a'
  · subst h5; rfl
  by_cases h6 : c = '\''
  · subst h6; rfl
  by_cases h7 : c = '\"'
  · subst h7; rfl
  by_cases h8 : c = '\\'
  · subst h8; rfl
  have e0 : (c == '\x00') = false := beq_eq_false_iff_ne.mpr h0
  have e1 : (c == '\x08') = false := beq_eq_false_iff_ne.mpr h1
  have e2 : (c == '\x09') = false := beq_eq_false_iff_ne.mpr h2
  have e3 : (c == '\x0a') = false := beq_eq_false_iff_ne.mpr h3
  have e4 : (c == '\x0d') = false := beq_eq_false_iff_ne.mpr h4
  have e5 : (c == '\x1a') = false := beq_eq_false_iff_ne.mpr h5
  simp [mysqlEscapeChar, specCharSub, specCharSubTable, List.lookup,
    h0, h1, h2, h3, h4, h5, h6, h7, h8, e0, e1, e2, e3, e4, e5]

/-- C1: under the MySQL dialect, `escape` (`MySQLDBMS.string`) returns
`null` for an absent value; for a byte sequence it returns `X'..'` with each
byte rendered as an uppercase hex pair (so escaping the bytes DE AD gives
`X'DEAD'`); for any other value it returns the value's string form wrapped
in double quotes with NUL, backspace, tab, newline, carriage return and
ASCII 0x1A replaced by `\0`, `\b`, `\t`, `\n`, `\r`, `\z` and each of `'`,
`"`, `\` prefixed with a backslash (the substitution stated spec-side by
`specCharSub`). -/
theorem C1_mysql_escape :
    MySQLDBMS.string .null = "null" ∧
    MySQLDBMS.string (.blob [0xDE, 0xAD]) = "X'DEAD'" ∧
    (∀ b : List (Fin 256), MySQLDBMS.string (.blob b) =
      "X'" ++ String.join (b.map hex2) ++ "'") ∧
    (∀ b : Fin 256, (hex2 b).length = 2 ∧
      ∀ c ∈ (hex2 b).data, c ∈ ("0123456789ABCDEF").data) ∧
    (∀ s : String, MySQLDBMS.string (.text s) =
      "\"" ++ String.join (s.data.map specCharSub) ++ "\"") ∧
    (∀ i : Int, MySQLDBMS.string (.int i) =
      "\"" ++ String.join ((toString i).data.map specCharSub) ++ "\"") := by
  refine ⟨rfl, by decide, fun b => rfl, by decide, fun s => ?_, fun i => ?_⟩
  · show "\"" ++ String.join (s.data.map mysqlEscapeChar) ++ "\"" = _
    rw [funext mysqlEscapeChar_eq_spec]
  · show "\"" ++ String.join ((toString i).data.map mysqlEscapeChar) ++ "\"" = _
    rw [funext mysqlEscapeChar_eq_spec]

/-- C10: `parse_bool` inspects only the first character of its argument
case-insensitively: a string starting with `y`, `t` or `1` gives `True`, one
starting with `n`, `f` or `0` gives `False` (so `"yellow"` parses as
`True`), any other first character raises ValueError, and the empty string
raises IndexError rather than ValueError. -/
theorem C10_parse_bool :
    (∀ (c : Char) (r : List Char),
        c.toLower = 'y' ∨ c.toLower = 't' ∨ c.toLower = '1' →
        parse_bool (String.mk (c :: r)) = .ok true) ∧
    (∀ (c : Char) (r : List Char),
        c.toLower = 'n' ∨ c.toLower = 'f' ∨ c.toLower = '0' →
        parse_bool (String.mk (c :: r)) = .ok false) ∧
    (∀ (c : Char) (r : List Char),
        ¬(c.toLower = 'y' ∨ c.toLower = 't' ∨ c.toLower = '1') →
        ¬(c.toLower = 'n' ∨ c.toLower = 'f' ∨ c.toLower = '0') →
        parse_bool (String.mk (c :: r)) =
          .error (.valueError
            ("invalid bool value '" ++ String.mk [c.toLower] ++ "'"))) ∧
    parse_bool "" = .error .indexError ∧
    parse_bool "yellow" = .ok true := by
  refine ⟨fun c r h => ?_, fun c r h => ?_, fun c r h1 h2 => ?_, rfl, rfl⟩
  · simp [parse_bool, h]
  · rcases h with h | h | h <;> simp [parse_bool, h]
  · simp [parse_bool, h1, h2]

/-- Witness for C10 at concrete inputs. -/
theorem C10_parse_bool_witness :
    parse_bool (String.mk ('Y' :: ['e', 's'])) = .ok true :=
  C10_parse_bool.1 'Y' ['e', 's'] (by decide)

/-- C7 (code evaluated at the failing input): the two backends disagree on
`not_null`.  A MySQL column whose SHOW COLUMNS `Null` field is `"NO"`
(NULL disallowed) is reported with `not_null = false` — the source computes
`item[2] != "NO"` — while the equivalent SQLite column (pragma `notnull`
nonzero) is reported with `not_null = true`. -/
theorem C7_not_null_eval :
    (mysqlColumnOfRow (fun _ => none)
        { field := "c", type := "int", nullText := "NO", key := "",
          default := none, extra := "" }).not_null = false ∧
    (mysqlColumnOfRow (fun _ => none)
        { field := "c", type := "int", nullText := "YES", key := "",
          default := none, extra := "" }).not_null = true ∧
    (sqliteColumnOfRow
        { cid := 0, name := "c", type := "int", notnull := 1,
          dflt_value := none, pk := 0 }).not_null = true ∧
    (sqliteColumnOfRow
        { cid := 0, name := "c", type := "int", notnull := 0,
          dflt_value := none, pk := 0 }).not_null = false := by
  refine ⟨?_, ?_, ?_, ?_⟩ <;> decide

/-- C8 (code evaluated at the failing input): with duplicate-ignore enabled
the flushed statement carries the fixed keyword `ignore` right after
`insert` — MySQL's syntax — no matter which backend's escape function the
inserter is bound to; binding to the SQLite backend produces the identical
`insert ignore into ...` prefix, not SQLite's `insert or ignore`. -/
theorem C8_ignore_keyword_eval :
    (((mkBulkInserter "t" ["a"] true).add_record SQLiteDBMS.string
        (.positional [.int 1])).1.done_insert).executed =
      ["insert ignore into t (a) values (1)"] ∧
    (((mkBulkInserter "t" ["a"] true).add_record MySQLDBMS.string
        (.positional [.int 1])).1.done_insert).executed =
      ["insert ignore into t (a) values (\"1\")"] := by
  refine ⟨?_, ?_⟩ <;> rfl

/-- C5 (code evaluated at the failing input): `SQLiteDBMS.iter_keys` yields
one descriptor per index DDL row of the whole database regardless of the
`table_name` argument — here, asked about any table `t`, it still yields the
key of index `i2` on table `t2` (while correctly recovering uniqueness,
name and the trimmed field list and dropping the `where` clause). -/
theorem C5_iter_keys_eval :
    ∀ t : String, SQLiteDBMS.iter_keys t
        ["create index i1 on t1 (a)",
         "CREATE UNIQUE INDEX i2 ON t2  ( x , y ) where x > 0"] =
      .ok [{ name := "i1", unique := false, fields := ["a"] },
           { name := "i2", unique := true, fields := ["x", "y"] }] :=
  fun _ => rfl

/-- Witness for C1 at a concrete byte and digit. -/
theorem C1_mysql_escape_witness :
    'D' ∈ ("0123456789ABCDEF").data :=
  (C1_mysql_escape.2.2.2.1 0xDE).2 'D' (by decide)

lemma vt_tail : ∀ (rest : List (List String)) (pre : String),
    pre ++ valuesText rest false =
      pyJoin ", " (pre :: rest.map fun q => "(" ++ pyJoin ", " q ++ ")")
  | [], pre => by
      show pre ++ "" = pre
      exact String.append_empty pre
  | q :: more, pre => by
      have ih := vt_tail more ("(" ++ pyJoin ", " q ++ ")")
      show pre ++ valuesText (q :: more) false =
        pre ++ ", " ++ pyJoin ", "
          (("(" ++ pyJoin ", " q ++ ")") :: more.map fun w => "(" ++ pyJoin ", " w ++ ")")
      rw [← ih]
      simp only [String.append_assoc]
      congr 1
      show ((("," ++ " (") ++ pyJoin ", " q) ++ ")") ++ valuesText more false = _
      simp only [String.append_assoc]
      rfl

lemma values_eq (r : List String) (rest : List (List String)) :
    ") values" ++ valuesText (r :: rest) true =
      ") values " ++ pyJoin ", " ((r :: rest).map fun q => "(" ++ pyJoin ", " q ++ ")") := by
  have h := vt_tail rest ("(" ++ pyJoin ", " r ++ ")")
  calc ") values" ++ valuesText (r :: rest) true
      = ") values " ++ (("(" ++ pyJoin ", " r ++ ")") ++ valuesText rest false) := by
        show ") values" ++
          (((("" ++ " (") ++ pyJoin ", " r) ++ ")") ++ valuesText rest false) = _
        simp only [String.append_assoc, String.empty_append]
        rfl
    _ = ") values " ++ pyJoin ", " ((r :: rest).map fun q => "(" ++ pyJoin ", " q ++ ")") := by
        rw [h]
        rfl

lemma insertStatement_spec (bi : BulkInserter) (h : bi.field_values ≠ []) :
    insertStatement bi = specInsertStatement bi.ignore_duplicates bi.table_name
      bi.field_names bi.field_values := by
  obtain ⟨r, rest, hrr⟩ : ∃ r rest, bi.field_values = r :: rest := by
    cases hv : bi.field_values with
    | nil => exact absurd hv h
    | cons a b => exact ⟨a, b, rfl⟩
  unfold insertStatement specInsertStatement
  rw [hrr]
  simp only [String.append_assoc]
  congr 1
  congr 1
  congr 1
  congr 1
  congr 1
  congr 1
  have := values_eq r rest
  simpa [String.append_assoc] using this

/-- C4: `done_insert` (flush) is a no-op when the buffer is empty; otherwise
it builds exactly one SQL statement of the spec's shape `insert
[duplicate-keyword] into table (f1, ..., fn) values (t1), (t2), ...` from
the already-escaped buffered literals, executes it once, clears the buffer
and releases the cursor; with field list `["a", "b"]`, duplicate-ignore
disabled and records `(1, 2)` and `(3, 4)` escaped per the bound (SQLite)
dialect, the flushed statement is exactly
`insert into T (a, b) values (1, 2), (3, 4)`. -/
theorem C4_done_insert (bi : BulkInserter) :
    (bi.field_values = [] → bi.done_insert = bi) ∧
    (bi.field_values ≠ [] →
      bi.done_insert =
        { bi with
            executed := bi.executed ++ [specInsertStatement bi.ignore_duplicates
              bi.table_name bi.field_names bi.field_values],
            field_values := [], cursor := false }) ∧
    (((((mkBulkInserter "T" ["a", "b"] false).add_record SQLiteDBMS.string
          (.positional [.int 1, .int 2])).1.add_record SQLiteDBMS.string
          (.positional [.int 3, .int 4])).1.done_insert).executed =
      ["insert into T (a, b) values (1, 2), (3, 4)"]) := by
  refine ⟨fun h => ?_, fun h => ?_, rfl⟩
  · unfold BulkInserter.done_insert
    rw [if_neg (by simp [h])]
  · have hne : bi.field_values.length ≠ 0 := by
      intro hz
      exact h (List.length_eq_zero.mp hz)
    unfold BulkInserter.done_insert
    rw [if_pos hne, insertStatement_spec bi h]

/-- Witness for C4 at a concrete two-record buffer. -/
theorem C4_done_insert_witness :
    ({ mkBulkInserter "T" ["a", "b"] false with
        field_values := [["1", "2"], ["3", "4"]] } : BulkInserter).done_insert =
      { mkBulkInserter "T" ["a", "b"] false with
          executed := [specInsertStatement false "T" ["a", "b"]
            [["1", "2"], ["3", "4"]]],
          field_values := [], cursor := false } :=
  (C4_done_insert _).2.1 (by simp)

lemma done_insert_limit (bi : BulkInserter) :
    bi.done_insert.insert_limit = bi.insert_limit := by
  unfold BulkInserter.done_insert
  split <;> rfl

lemma done_insert_len (bi : BulkInserter) :
    bi.done_insert.field_values.length ≤ bi.field_values.length := by
  unfold BulkInserter.done_insert
  split <;> simp

lemma add_record_bound (esc : SqlValue → String) (v : FieldValues)
    (bi : BulkInserter) (h1 : bi.field_values.length ≤ bi.insert_limit)
    (h2 : 0 < bi.insert_limit) :
    (bi.add_record esc v).1.field_values.length ≤ bi.insert_limit ∧
    (bi.add_record esc v).1.insert_limit = bi.insert_limit := by
  unfold BulkInserter.add_record
  by_cases hfull : bi.field_values.length = bi.insert_limit
  · have hne : bi.field_values.length ≠ 0 := by omega
    have hdone : bi.done_insert = { bi with
        executed := bi.executed ++ [insertStatement bi],
        field_values := [], cursor := false } := by
      unfold BulkInserter.done_insert
      rw [if_pos hne]
    simp only [hfull, if_pos rfl, hdone]
    rcases hb : buildRecord esc bi.field_names v with e | r <;> simp [hb] <;> omega
  · simp only [if_neg hfull]
    by_cases hc : bi.cursor <;>
      simp only [hc, if_pos rfl, if_neg Bool.false_ne_true] <;>
      rcases hb : buildRecord esc bi.field_names v with e | r <;>
      simp [hb] <;> omega

lemma runOps_bound (esc : SqlValue → String) : ∀ (ops : List BIOp) (bi : BulkInserter),
    bi.field_values.length ≤ bi.insert_limit → 0 < bi.insert_limit →
    (runOps esc bi ops).field_values.length ≤ bi.insert_limit ∧
    (runOps esc bi ops).insert_limit = bi.insert_limit
  | [], bi => fun h1 _ => ⟨h1, rfl⟩
  | op :: ops, bi => fun h1 h2 => by
      cases op with
      | add v =>
          have hb := add_record_bound esc v bi h1 h2
          have ih := runOps_bound esc ops (bi.add_record esc v).1
            (hb.2 ▸ hb.1) (hb.2 ▸ h2)
          exact ⟨hb.2 ▸ ih.1, (hb.2 ▸ ih.2 : _)⟩
      | flush =>
          have hl := done_insert_limit bi
          have hf := done_insert_len bi
          have ih := runOps_bound esc ops bi.done_insert
            (hl ▸ le_trans hf h1) (hl ▸ h2)
          exact ⟨hl ▸ ih.1, hl ▸ ih.2⟩

/-- C3: after any sequence of operations on a freshly constructed
BulkInserter — construction, `add_record`, `done_insert` in any order — the
buffer of pre-escaped rows holds at most 500 entries (the batch ceiling);
and an `add_record` call that finds the buffer at the ceiling first flushes
the whole existing buffer (executing its one statement) and then appends the
new record as the sole buffered row. -/
theorem C3_buffer_ceiling (esc : SqlValue → String) (table : String)
    (fields : List String) (ig : Bool) (ops : List BIOp) :
    (runOps esc (mkBulkInserter table fields ig) ops).field_values.length ≤ 500 ∧
    (∀ (bi : BulkInserter) (v : FieldValues) (r : List String),
      bi.insert_limit = 500 → bi.field_values.length = 500 →
      buildRecord esc bi.field_names v = .ok r →
      (bi.add_record esc v).1.field_values = [r] ∧
      (bi.add_record esc v).1.executed = bi.executed ++ [insertStatement bi]) := by
  constructor
  · exact (runOps_bound esc ops (mkBulkInserter table fields ig)
      (by simp [mkBulkInserter]) (by simp [mkBulkInserter])).1
  · intro bi v r hlim hlen hbr
    unfold BulkInserter.add_record
    have hfull : bi.field_values.length = bi.insert_limit := by omega
    have hne : bi.field_values.length ≠ 0 := by omega
    have hdone : bi.done_insert = { bi with
        executed := bi.executed ++ [insertStatement bi],
        field_values := [], cursor := false } := by
      unfold BulkInserter.done_insert
      rw [if_pos hne]
    simp [hfull, hdone, hbr]

/-- Witness for C3 on a concrete buffer at the ceiling. -/
theorem C3_buffer_ceiling_witness :
    (({ mkBulkInserter "t" ["a"] false with
          field_values := List.replicate 500 ["null"] } : BulkInserter).add_record
        MySQLDBMS.string (.positional [.null])).1.field_values = [["null"]] ∧
    (({ mkBulkInserter "t" ["a"] false with
          field_values := List.replicate 500 ["null"] } : BulkInserter).add_record
        MySQLDBMS.string (.positional [.null])).1.executed =
      [insertStatement ({ mkBulkInserter "t" ["a"] false with
          field_values := List.replicate 500 ["null"] } : BulkInserter)] :=
  (C3_buffer_ceiling MySQLDBMS.string "t" ["a"] false []).2
    ({ mkBulkInserter "t" ["a"] false with
        field_values := List.replicate 500 ["null"] } : BulkInserter)
    (.positional [.null]) ["null"] rfl (List.length_replicate 500 _) rfl

lemma addNullN_char (n : Nat) (h : n ≤ 500) :
    addNullN n =
      { table_name := "t", field_names := ["a"], ignore_duplicates := false,
        insert_limit := 500, field_values := List.replicate n ["null"],
        executed := [], cursor := n != 0 } := by
  induction n with
  | zero => rfl
  | succ m ih =>
      have hm : m ≤ 500 := by omega
      rw [addNullN, ih hm]
      unfold BulkInserter.add_record
      have hlen : (List.replicate m (["null"] : List String)).length = m :=
        List.length_replicate m _
      simp only [hlen, buildRecord]
      rw [if_neg (by omega : ¬ m = 500)]
      by_cases hm0 : m = 0
      · subst hm0; rfl
      · have hb : (m != 0) = true := by simpa using hm0
        simp only [hb, if_pos rfl]
        show ({ table_name := "t", field_names := ["a"],
                ignore_duplicates := false, insert_limit := 500,
                field_values := List.replicate m ["null"] ++ [["null"]],
                executed := [], cursor := true } : BulkInserter) = _
        rw [← List.replicate_succ']
        simp [Nat.succ_ne_zero]

lemma addNullN_501 :
    addNullN 501 =
      { table_name := "t", field_names := ["a"], ignore_duplicates := false,
        insert_limit := 500, field_values := [["null"]],
        executed := [insertStatement (addNullN 500)], cursor := true } := by
  rw [show (501 : Nat) = 500 + 1 from rfl, addNullN]
  conv_lhs => rw [addNullN_char 500 le_rfl]
  unfold BulkInserter.add_record
  have hlen : (List.replicate 500 (["null"] : List String)).length = 500 :=
    List.length_replicate 500 _
  simp only [hlen, buildRecord, if_pos rfl]
  unfold BulkInserter.done_insert
  rw [if_pos (by simp [hlen] :
    ¬ (List.replicate 500 (["null"] : List String)).length = 0)]
  rw [addNullN_char 500 le_rfl]
  rfl

/-- C2 counterexample: after exactly 500 `add_record` calls on a fresh
inserter, no statement has been executed at all — the claimed single
automatic flush did not happen (the flush only fires at the start of the
501st call). -/
theorem C2_counterexample :
    (addNullN 500).executed = [] ∧ ¬ (addNullN 500).executed.length = 1 := by
  rw [addNullN_char 500 le_rfl]
  exact ⟨rfl, by simp⟩

/-- C2 as amended: adding exactly 500 records triggers no automatic flush
and leaves all 500 rows buffered; the 501st `add_record` call triggers
exactly one automatic flush — executing the single INSERT built from the 500
buffered value-tuples, of the spec's statement shape — before the new record
is buffered as the sole remaining row. -/
theorem C2_batch_flush :
    (addNullN 500).executed = [] ∧
    (addNullN 500).field_values.length = 500 ∧
    (addNullN 501).executed = [insertStatement (addNullN 500)] ∧
    (addNullN 501).field_values = [["null"]] ∧
    insertStatement (addNullN 500) =
      specInsertStatement false "t" ["a"] (List.replicate 500 ["null"]) := by
  refine ⟨?_, ?_, ?_, ?_, ?_⟩
  · rw [addNullN_char 500 le_rfl]
  · rw [addNullN_char 500 le_rfl]
    exact List.length_replicate 500 _
  · rw [addNullN_501]
  · rw [addNullN_501]
  · conv_lhs => rw [addNullN_char 500 le_rfl]
    exact insertStatement_spec _ (by simp)

/-- C9: `parse_dbms_params` splits its string on colons, takes token 0 as
the backend identifier and validates each later `key=value` token against
that backend's declared parameter table, converting values with the declared
converters — so `"mysql:host=localhost:port=3306:user=x"` yields host
`"localhost"`, port `3306` as an integer and user `"x"`; an unrecognized
backend identifier (hence also a missing one, which leaves the empty
identifier), an unrecognized parameter name, and the deliberately excluded
parameter `create` each produce a usage-level (GetoptError) failure in this
pure parsing stage, before any connection attempt. -/
theorem C9_parse_dbms_params :
    parse_dbms_params "mysql:host=localhost:port=3306:user=x" "" =
      .ok ("mysql",
        [("host", .str "localhost"), ("port", .int 3306), ("user", .str "x")]) ∧
    (∀ s w : String, (pySplitStr ':' s).headD "" ∉ ["mysql", "sqlite"] →
      isUsageError (parse_dbms_params s w) = true) ∧
    isUsageError (parse_dbms_params "" "copying from") = true ∧
    isUsageError (parse_dbms_params "mysql:bogus=1" "") = true ∧
    isUsageError (parse_dbms_params "sqlite:filename=f:create=y" "") = true := by
  refine ⟨rfl, fun s w h => ?_, rfl, rfl, rfl⟩
  simp only [List.mem_cons, List.mem_singleton, not_or] at h
  have h1 : ((pySplitStr ':' s).headD "" == "mysql") = false :=
    beq_eq_false_iff_ne.mpr h.1
  have h2 : ((pySplitStr ':' s).headD "" == "sqlite") = false :=
    beq_eq_false_iff_ne.mpr h.2.1
  unfold parse_dbms_params
  simp only [DBMSClasses, List.lookup, h1, h2]
  split <;> rfl

/-- Witness for C9 at a concrete unrecognized identifier. -/
theorem C9_parse_dbms_params_witness :
    isUsageError (parse_dbms_params "oracle:host=h" "as source") = true :=
  C9_parse_dbms_params.2.1 "oracle:host=h" "as source" (by decide)

lemma seqFromB_append (xs ys : List Nat) (k : Nat) :
    seqFromB k (xs ++ ys) = (seqFromB k xs && seqFromB (k + xs.length) ys) := by
  induction xs generalizing k with
  | nil => simp [seqFromB]
  | cons a t ih =>
      have h : k + (t.length + 1) = (k + 1) + t.length := by omega
      simp [seqFromB, ih, Bool.and_assoc, List.length_cons, h]

lemma keyRunsGo_first : ∀ (rows : List KeyRow) (name : String) (cur : List KeyRow),
    ∃ t rs, keyRunsGo name cur rows = (cur ++ t) :: rs
  | [], name, cur => ⟨[], [], by simp [keyRunsGo]⟩
  | r :: rest, name, cur => by
      by_cases h : r.keyName = name
      · obtain ⟨t, rs, ht⟩ := keyRunsGo_first rest name (cur ++ [r])
        exact ⟨[r] ++ t, rs, by simp [keyRunsGo, h, ht]⟩
      · exact ⟨[], keyRunsGo r.keyName [r] rest, by simp [keyRunsGo, h]⟩

lemma mkEntry_concat (c : KeyRow) (cs : List KeyRow) (r : KeyRow) :
    mkEntry ((c :: cs) ++ [r]) =
      { mkEntry (c :: cs) with
          fields := (mkEntry (c :: cs)).fields ++ [r.fieldName] } := by
  simp [mkEntry]

lemma go_spec : ∀ (rows : List KeyRow) (c : KeyRow) (cs : List KeyRow),
    (∀ x ∈ cs, x.keyName = c.keyName) →
    seqFromB 1 ((c :: cs).map KeyRow.keySeq) = true →
    (((mysqlIterKeysGo (mkEntry (c :: cs)) (c :: cs).length rows).2 = none) ↔
      ((keyRunsGo c.keyName (c :: cs) rows).all fun g =>
        seqFromB 1 (g.map KeyRow.keySeq)) = true) ∧
    (((mysqlIterKeysGo (mkEntry (c :: cs)) (c :: cs).length rows).2 = none) →
      (mysqlIterKeysGo (mkEntry (c :: cs)) (c :: cs).length rows).1 =
        (keyRunsGo c.keyName (c :: cs) rows).map mkEntry)
  | [], c, cs => fun _ hseq => by
      constructor
      · constructor
        · intro _
          simp only [keyRunsGo, List.all_cons, List.all_nil, Bool.and_true]
          exact hseq
        · intro _
          rfl
      · intro _
        simp [mysqlIterKeysGo, keyRunsGo]
  | r :: rest, c, cs => fun hnames hseq => by
      have hname2 : (mkEntry (c :: cs)).name = c.keyName := rfl
      by_cases hname : r.keyName = c.keyName
      · by_cases hs : r.keySeq = (c :: cs).length + 1
        · -- same key, sequence continues: extend the run
          have hnames' : ∀ x ∈ cs ++ [r], x.keyName = c.keyName := by
            intro x hx
            rcases List.mem_append.mp hx with h | h
            · exact hnames x h
            · simp only [List.mem_singleton] at h
              subst h
              exact hname
          have hseq' : seqFromB 1 ((c :: (cs ++ [r])).map KeyRow.keySeq) = true := by
            have e : (c :: (cs ++ [r])) = (c :: cs) ++ [r] := by simp
            rw [e, List.map_append, seqFromB_append, hseq]
            simp only [List.map_cons, List.map_nil, seqFromB, Bool.and_true,
              Bool.true_and, List.length_map, List.length_cons, beq_iff_eq]
            simp only [List.length_cons] at hs
            omega
          have hname3 : r.keyName = (mkEntry (c :: cs)).name := hname
          have hgo : mysqlIterKeysGo (mkEntry (c :: cs)) ((c :: cs).length) (r :: rest) =
              mysqlIterKeysGo (mkEntry (c :: (cs ++ [r]))) ((c :: (cs ++ [r])).length) rest := by
            simp only [mysqlIterKeysGo]
            rw [if_pos hname3, if_pos hs]
            have e2 : r.keySeq = (c :: (cs ++ [r])).length := by
              simp only [List.length_cons, List.length_append, List.length_nil] at hs ⊢
              omega
            rw [e2]
            congr 1
            simp [mkEntry, List.map_append]
          have hruns : keyRunsGo c.keyName (c :: cs) (r :: rest) =
              keyRunsGo c.keyName (c :: (cs ++ [r])) rest := by
            simp only [keyRunsGo]
            rw [if_pos hname, List.cons_append]
          rw [hgo, hruns]
          exact go_spec rest c (cs ++ [r]) hnames' hseq'
        · -- same key, sequence broken: assertion fails
          have hname3 : r.keyName = (mkEntry (c :: cs)).name := hname
          have hgo : mysqlIterKeysGo (mkEntry (c :: cs)) ((c :: cs).length) (r :: rest) =
              ([], some "key fields not being returned in sequence") := by
            simp only [mysqlIterKeysGo]
            rw [if_pos hname3, if_neg hs]
          have hruns : keyRunsGo c.keyName (c :: cs) (r :: rest) =
              keyRunsGo c.keyName ((c :: cs) ++ [r]) rest := by
            simp only [keyRunsGo]
            rw [if_pos hname]
          obtain ⟨t, rs, hfirst⟩ := keyRunsGo_first rest c.keyName ((c :: cs) ++ [r])
          have hbad : seqFromB 1 ((((c :: cs) ++ [r]) ++ t).map KeyRow.keySeq) = false := by
            rw [List.map_append, seqFromB_append, List.map_append, seqFromB_append, hseq]
            simp only [List.map_cons, List.map_nil, seqFromB, Bool.and_true,
              Bool.true_and, Bool.and_eq_false_iff, beq_eq_false_iff_ne, ne_eq]
            left
            simp only [List.length_map, List.length_cons] at hs ⊢
            omega
          constructor
          · rw [hgo, hruns, hfirst]
            simp only [List.all_cons, hbad, Bool.false_and]
            simp
          · intro habs
            rw [hgo] at habs
            cases habs
      · by_cases hs1 : r.keySeq = 1
        · -- new key starts: emit the finished entry, open a new run
          have hname3 : ¬ r.keyName = (mkEntry (c :: cs)).name := hname
          have hgo : mysqlIterKeysGo (mkEntry (c :: cs)) ((c :: cs).length) (r :: rest) =
              ((mkEntry (c :: cs)) ::
                 (mysqlIterKeysGo (mkEntry [r]) ([r].length) rest).1,
               (mysqlIterKeysGo (mkEntry [r]) ([r].length) rest).2) := by
            simp only [mysqlIterKeysGo]
            rw [if_neg hname3, if_pos hs1, hs1]
            rfl
          have hruns : keyRunsGo c.keyName (c :: cs) (r :: rest) =
              (c :: cs) :: keyRunsGo r.keyName [r] rest := by
            simp only [keyRunsGo]
            rw [if_neg hname]
          have ih := go_spec rest r [] (by simp) (by simp [seqFromB, hs1])
          constructor
          · rw [hgo, hruns]
            simp only [List.all_cons]
            simp only [show seqFromB 1 ((c :: cs).map KeyRow.keySeq) = true from hseq,
              Bool.true_and]
            exact ih.1
          · intro h2
            rw [hgo] at h2 ⊢
            rw [hruns]
            simp only [List.map_cons]
            exact congrArg _ (ih.2 h2)
        · -- new key starts with a sequence gap: entry emitted, then assertion fails
          have hname3 : ¬ r.keyName = (mkEntry (c :: cs)).name := hname
          have hgo : mysqlIterKeysGo (mkEntry (c :: cs)) ((c :: cs).length) (r :: rest) =
              ([mkEntry (c :: cs)], some "key fields not being returned in sequence") := by
            simp only [mysqlIterKeysGo]
            rw [if_neg hname3, if_neg hs1]
          have hruns : keyRunsGo c.keyName (c :: cs) (r :: rest) =
              (c :: cs) :: keyRunsGo r.keyName [r] rest := by
            simp only [keyRunsGo]
            rw [if_neg hname]
          obtain ⟨t, rs, hfirst⟩ := keyRunsGo_first rest r.keyName [r]
          have hbad : seqFromB 1 (([r] ++ t).map KeyRow.keySeq) = false := by
            rw [List.map_append]
            simp only [List.map_cons, List.map_nil, List.singleton_append,
              seqFromB, Bool.and_eq_false_iff, beq_eq_false_iff_ne, ne_eq]
            left
            exact hs1
          constructor
          · rw [hgo, hruns, hfirst]
            simp only [List.all_cons, hbad, Bool.false_and, Bool.and_false]
            simp
          · intro habs
            rw [hgo] at habs
            cases habs

/-- C6: `MySQLDBMS.iter_keys` accumulates consecutive key rows (pre-ordered
by key name then field sequence) into one entry per maximal run of equal key
names, emitting each completed entry when the key name changes or the input
ends; it completes without the fatal assertion exactly when, within every
run, the sequence numbers form the strictly ascending gap-free run
1, 2, 3, ... (`seqRunsValid`), and on success the emitted entries are
precisely one per run, with name and uniqueness from the run's first row and
the fields in row order; any gap or out-of-order sequence number instead
halts processing with the assertion message, never silently repaired. -/
theorem C6_mysql_iter_keys (rows : List KeyRow) :
    ((MySQLDBMS.iter_keys rows).2 = none ↔ seqRunsValid rows = true) ∧
    ((MySQLDBMS.iter_keys rows).2 = none →
      (MySQLDBMS.iter_keys rows).1 = (keyRuns rows).map mkEntry) := by
  cases rows with
  | nil =>
      constructor
      · simp [MySQLDBMS.iter_keys, seqRunsValid, keyRuns]
      · intro _
        rfl
  | cons r rest =>
      have hkr : keyRuns (r :: rest) = keyRunsGo r.keyName [r] rest := rfl
      by_cases h1 : r.keySeq = 1
      · have e : mysqlIterKeysGo
            { name := r.keyName, unique := r.nonUnique == 0,
              fields := [r.fieldName] } r.keySeq rest =
            mysqlIterKeysGo (mkEntry [r]) ([r].length) rest := by
          rw [h1]
          rfl
        have hiter : MySQLDBMS.iter_keys (r :: rest) =
            mysqlIterKeysGo (mkEntry [r]) ([r].length) rest := by
          show (if r.keySeq = 1 then
              mysqlIterKeysGo
                { name := r.keyName, unique := r.nonUnique == 0,
                  fields := [r.fieldName] } r.keySeq rest
            else ([], some "key fields not being returned in sequence")) = _
          rw [if_pos h1, e]
        have hg := go_spec rest r [] (by simp) (by simp [seqFromB, h1])
        rw [hiter]
        unfold seqRunsValid
        rw [hkr]
        exact hg
      · have hiter : MySQLDBMS.iter_keys (r :: rest) =
            ([], some "key fields not being returned in sequence") := by
          show (if r.keySeq = 1 then
              mysqlIterKeysGo
                { name := r.keyName, unique := r.nonUnique == 0,
                  fields := [r.fieldName] } r.keySeq rest
            else ([], some "key fields not being returned in sequence")) = _
          rw [if_neg h1]
        obtain ⟨t, rs, hfirst⟩ := keyRunsGo_first rest r.keyName [r]
        have hbad : seqFromB 1 (([r] ++ t).map KeyRow.keySeq) = false := by
          rw [List.map_append]
          simp only [List.map_cons, List.map_nil, List.singleton_append,
            seqFromB, Bool.and_eq_false_iff, beq_eq_false_iff_ne, ne_eq]
          left
          exact h1
        constructor
        · rw [hiter]
          unfold seqRunsValid
          rw [hkr, hfirst]
          simp only [List.all_cons, hbad, Bool.false_and]
          simp
        · intro habs
          rw [hiter] at habs
          cases habs

/-- Witness for C6 on a concrete two-key row list. -/
theorem C6_mysql_iter_keys_witness :
    (MySQLDBMS.iter_keys
        [⟨0, "k", 1, "a"⟩, ⟨0, "k", 2, "b"⟩, ⟨1, "j", 1, "c"⟩]).1 =
      (keyRuns [⟨0, "k", 1, "a"⟩, ⟨0, "k", 2, "b"⟩, ⟨1, "j", 1, "c"⟩]).map
        mkEntry :=
  (C6_mysql_iter_keys _).2 (by rfl)
